import Mathlib

/-!
Verification of the Villa Allende emergency system notification-routing
and backup/restore subsystem (files `utils/whatsapp.py`, `utils/backup.py`).

Python strings are modelled as `List Char` (`Str`), file contents as
`List Nat` (byte lists).  Database/network effects are modelled explicitly:
configuration rows become an explicit `Configuracion` record, the messaging
gateway becomes a boolean oracle, and delivery calls are returned as a log.
-/

namespace Emergencias

/-- Python strings are modelled as lists of characters. -/
abbrev Str : Type := List Char

/-! ## Phone normalization — `WhatsAppManager._clean_phone_number` -/

/-- Model of `WhatsAppManager._clean_phone_number` (utils/whatsapp.py, lines 340-360).
`if not phone: return ""`; strip non-digits; then the four length branches
adding the Argentine country code.  `startswith` is rendered with `List.take`. -/
def clean_phone_number (phone : Str) : Str :=
  if phone = [] then []
  else
    let clean_phone := phone.filter Char.isDigit
    if clean_phone.length = 10 then
      "54".toList ++ clean_phone
    else if clean_phone.length = 11 ∧ clean_phone.take 1 = "0".toList then
      "54".toList ++ clean_phone.drop 1
    else if clean_phone.length = 13 ∧ clean_phone.take 3 = "549".toList then
      clean_phone
    else if clean_phone.length = 12 ∧ clean_phone.take 2 = "54".toList then
      clean_phone.take 2 ++ "9".toList ++ clean_phone.drop 2
    else
      clean_phone

/-! ## Data model — emergency records (`models.Llamado`) and configuration rows -/

/-- Emergency category (`llamado.tipo`, column values per models.py). -/
inductive Tipo : Type
  | medica
  | bomberos
  | seguridad
  | defensa
  | otros
deriving DecidableEq

/-- Priority (`llamado.prioridad`: rojo, amarillo, verde). -/
inductive Prioridad : Type
  | rojo
  | amarillo
  | verde
deriving DecidableEq

/-- Parsed triage JSON dictionary (`llamado.triage_data`).  Each key may be
absent (`none`) or hold a JSON boolean. -/
structure Triage : Type where
  consciente : Option Bool
  respira : Option Bool
  sangrado : Option Bool
  patologia : Option Bool
  discapacidad : Option Bool
deriving DecidableEq

/-- Python `any(triage.values())`: some present key holds a truthy value. -/
def Triage.anyValues (t : Triage) : Bool :=
  t.consciente.getD false || t.respira.getD false || t.sangrado.getD false ||
    t.patologia.getD false || t.discapacidad.getD false

/-- The fields of an emergency record (`models.Llamado`) read by the router.
`fecha_formateada` stands for `llamado.fecha.strftime("%d/%m/%Y %H:%M")` and
`operador_nombre` for `llamado.usuario.nombre` (datetime formatting and the
user join are external to this model).  `triage_data = none` covers an absent,
empty or unparseable JSON payload (the code swallows parse errors). -/
structure Llamado : Type where
  id : Nat
  nombre : Str
  apellido : Str
  telefono : Str
  direccion_completa : Str
  via_publica : Str
  observaciones_iniciales : Option Str
  tipo : Tipo
  prioridad : Prioridad
  triage_data : Option Triage
  fecha_formateada : Str
  operador_nombre : Str
deriving DecidableEq

/-- The `Configuracion` rows read by `obtener_destinatarios`, one per
responder-role key.  `none` means the row is absent; `some v` means the row
exists with `valor = v` (possibly empty). -/
structure Configuracion : Type where
  telefono_supervisor : Option Str
  telefono_demva : Option Str
  telefono_cec : Option Str
  telefono_telemedicina : Option Str
  telefono_bomberos : Option Str
  telefono_seguridad : Option Str
  telefono_defensa : Option Str
deriving DecidableEq

/-! ## Recipient resolution — `WhatsAppManager.obtener_destinatarios` -/

/-- The source pattern `if row and row.valor: destinatarios.append(row.valor)`:
the row must exist and its value be truthy (non-empty). -/
def appendValor (o : Option Str) : List Str :=
  match o with
  | some v => if v = [] then [] else [v]
  | none => []

/-- The candidate list built by `obtener_destinatarios` before the
duplicate-elimination loop (utils/whatsapp.py, lines 209-251): supervisor
first, then the category/context-specific role. -/
def destinatarios_candidatos (cfg : Configuracion) (l : Llamado) : List Str :=
  appendValor cfg.telefono_supervisor ++
    (match l.tipo with
     | Tipo.medica =>
         if l.via_publica = "domicilio".toList then
           if l.prioridad = Prioridad.rojo ∨ l.prioridad = Prioridad.amarillo then
             appendValor cfg.telefono_demva
           else
             appendValor cfg.telefono_telemedicina
         else
           appendValor cfg.telefono_cec
     | Tipo.bomberos => appendValor cfg.telefono_bomberos
     | Tipo.seguridad => appendValor cfg.telefono_seguridad
     | Tipo.defensa => appendValor cfg.telefono_defensa
     | Tipo.otros => [])

/-- The duplicate-elimination loop (lines 256-260): `for dest in destinatarios:
if dest not in destinatarios_unicos: destinatarios_unicos.append(dest)`. -/
def eliminar_duplicados (destinatarios : List Str) : List Str :=
  destinatarios.foldl (fun acc dest => if dest ∈ acc then acc else acc ++ [dest]) []

/-- Model of `WhatsAppManager.obtener_destinatarios` (lines 207-262). -/
def obtener_destinatarios (cfg : Configuracion) (l : Llamado) : List Str :=
  eliminar_duplicados (destinatarios_candidatos cfg l)

/-! ## Message rendering — `WhatsAppManager.crear_mensaje_llamado` -/

/-- Column value behind `llamado.tipo` (models.py). -/
def Tipo.toStr : Tipo → Str
  | Tipo.medica => "medica".toList
  | Tipo.bomberos => "bomberos".toList
  | Tipo.seguridad => "seguridad".toList
  | Tipo.defensa => "defensa".toList
  | Tipo.otros => "otros".toList

/-- Column value behind `llamado.prioridad` (models.py). -/
def Prioridad.toStr : Prioridad → Str
  | Prioridad.rojo => "rojo".toList
  | Prioridad.amarillo => "amarillo".toList
  | Prioridad.verde => "verde".toList

/-- Lookup `tipos_emoji.get(llamado.tipo, default 📞)` (lines 147-153). -/
def tipos_emoji : Tipo → Str
  | Tipo.medica => "🏥".toList
  | Tipo.bomberos => "🚒".toList
  | Tipo.seguridad => "🚔".toList
  | Tipo.defensa => "🌪️".toList
  | Tipo.otros => "📞".toList

/-- Lookup `prioridades_emoji.get(llamado.prioridad, default 🟢)` (lines 156-160). -/
def prioridades_emoji : Prioridad → Str
  | Prioridad.rojo => "🔴".toList
  | Prioridad.amarillo => "🟡".toList
  | Prioridad.verde => "🟢".toList

/-- Python `str.upper()` restricted to the ASCII names used here. -/
def pyUpper (s : Str) : Str := s.map Char.toUpper

/-- Python `str.title()`: uppercase a letter that follows a non-letter,
lowercase the other letters.  The boolean in the accumulator records whether the
previous character was a letter. -/
def pyTitle (s : Str) : Str :=
  (s.foldl
    (fun (acc : Str × Bool) c =>
      if c.isAlpha then
        (acc.1 ++ [if acc.2 then c.toLower else c.toUpper], true)
      else
        (acc.1 ++ [c], false))
    ([], false)).1

/-- The initial f-string assigned to `mensaje` (lines 166-184). -/
def base_mensaje (l : Llamado) : Str :=
  "🚨 EMERGENCIA VILLA ALLENDE\n\n".toList
  ++ tipos_emoji l.tipo ++ " TIPO: ".toList ++ pyUpper l.tipo.toStr ++ "\n".toList
  ++ prioridades_emoji l.prioridad ++ " PRIORIDAD: ".toList
      ++ pyUpper l.prioridad.toStr ++ "\n\n".toList
  ++ "👤 SOLICITANTE:\n".toList ++ l.nombre ++ " ".toList ++ l.apellido ++ "\n".toList
  ++ "📞 ".toList ++ l.telefono ++ "\n\n".toList
  ++ "📍 UBICACIÓN:\n".toList ++ l.direccion_completa ++ "\n".toList
  ++ (if l.via_publica = "domicilio".toList then "🏠".toList else "🛣️".toList)
      ++ " ".toList
      ++ pyTitle (l.via_publica.map (fun c => if c = '_' then ' ' else c)) ++ "\n\n".toList
  ++ "📝 OBSERVACIONES:\n".toList
  ++ (match l.observaciones_iniciales with
      | some o => if o = [] then "Sin observaciones".toList else o
      | none => "Sin observaciones".toList) ++ "\n\n".toList
  ++ "⏰ HORA: ".toList ++ l.fecha_formateada ++ "\n".toList
  ++ "🆔 LLAMADO: #".toList ++ (toString l.id).toList ++ "\n".toList
  ++ "👨‍💼 OPERADOR: ".toList ++ l.operador_nombre

/-- The conditional triage appends (lines 186-203): guarded by
`tipo == "medica" and triage_data`, then `any(triage.values())`, then one
`mensaje +=` per flag in the fixed source order. -/
def triage_suffix (tipo : Tipo) (td : Option Triage) : Str :=
  match td with
  | some triage =>
      if tipo = Tipo.medica then
        if triage.anyValues then
          "\n\n🩺 TRIAGE:".toList
          ++ (if triage.consciente = some false then "\n⚠️ NO CONSCIENTE".toList else [])
          ++ (if triage.respira = some false then "\n⚠️ NO RESPIRA".toList else [])
          ++ (if triage.sangrado.getD false then "\n🩸 SANGRADO ABUNDANTE".toList else [])
          ++ (if triage.patologia.getD false then "\n⚕️ PATOLOGÍA GRAVE".toList else [])
          ++ (if triage.discapacidad.getD false then "\n♿ DISCAPACIDAD".toList else [])
        else []
      else []
  | none => []

/-- Model of `WhatsAppManager.crear_mensaje_llamado` (lines 144-205): the base
f-string followed by the conditional triage appends. -/
def crear_mensaje_llamado (l : Llamado) : Str :=
  base_mensaje l ++ triage_suffix l.tipo l.triage_data

/-! ## Sending — `is_configured`, `send_message`, `enviar_notificacion_llamado` -/

/-- Python truthiness of an optional string (absent or empty is falsy). -/
def truthy (o : Option Str) : Bool :=
  match o with
  | some s => decide (s ≠ [])
  | none => false

/-- Model of `WhatsAppManager.is_configured` (lines 77-79): `bool(self.token and self.uid)`. -/
def is_configured (token uid : Option Str) : Bool :=
  truthy token && truthy uid

/-- Model of `WhatsAppManager.send_message` (lines 105-142).  The HTTP gateway is an
oracle `gateway cleaned_phone text : Bool` standing for whether the Waboxapp
POST reports the message as sent; the phone is normalized before the call. -/
def send_message (token uid : Option Str) (gateway : Str → Str → Bool)
    (phone message : Str) : Bool :=
  if is_configured token uid then gateway (clean_phone_number phone) message
  else false

/-- The dictionaries returned by `enviar_notificacion_llamado`: either one of
the `{success: False, error: ...}` shapes, or the send report of
lines 295-301. -/
inductive NotifResultado : Type
  | errorRes (success : Bool) (error : Str)
  | reporte (success : Bool) (enviados : Nat) (total_destinatarios : Nat)
      (errores : List Str) (destinatarios : List Str)
deriving DecidableEq

/-- Model of `WhatsAppManager.enviar_notificacion_llamado` (lines 264-308).  Besides
the result dictionary it returns the log of `send_message(destinatario,
mensaje)` calls performed, so that "performs no delivery calls" is a statement
about the model. -/
def enviar_notificacion_llamado (token uid : Option Str)
    (gateway : Str → Str → Bool) (cfg : Configuracion) (l : Llamado) :
    NotifResultado × List (Str × Str) :=
  if is_configured token uid = false then
    (NotifResultado.errorRes false "WhatsApp no configurado".toList, [])
  else
    let mensaje := crear_mensaje_llamado l
    let destinatarios := obtener_destinatarios cfg l
    if destinatarios = [] then
      (NotifResultado.errorRes false "No hay destinatarios configurados".toList, [])
    else
      let enviados := destinatarios.countP
        (fun d => send_message token uid gateway d mensaje)
      let errores := destinatarios.filter
        (fun d => !(send_message token uid gateway d mensaje))
      (NotifResultado.reporte (decide (0 < enviados)) enviados destinatarios.length
        errores destinatarios,
       destinatarios.map (fun d => (d, mensaje)))

/-! ## Backup engine — `utils/backup.py`

File contents are byte lists (`List Nat`).  The on-disk state touched by
`BackupManager` is the primary data store `emergency_system.db`, the
`backups/` directory, the side file `emergency_system.db.restore_backup`,
and the `static/uploads` tree (`none` = directory absent).  Contents that
come from the live SQL database (CSV renders, configuration JSON, metadata
JSON) are external inputs to the model, as is the JSON parse of the archive
metadata (`includesUploads`).
-/

/-- A zip archive: ordered entries of name and bytes. -/
structure ZipFile : Type where
  entries : List (Str × List Nat)
deriving DecidableEq

/-- Model of `zipfile.ZipFile.namelist()`. -/
def ZipFile.namelist (z : ZipFile) : List Str := z.entries.map Prod.fst

/-- Model of `zipfile.ZipFile.read(name)` (first entry with that name). -/
def ZipFile.readEntry (z : ZipFile) (name : Str) : Option (List Nat) :=
  z.entries.lookup name

/-- The file-system state touched by `BackupManager`
(`db_path = "emergency_system.db"`, `backup_dir = "backups"`). -/
structure FS : Type where
  db : Option (List Nat)
  backups : List (Str × ZipFile)
  db_restore_backup : Option (List Nat)
  uploads : Option (List (Str × List Nat))
deriving DecidableEq

/-- The archive name built at backup.py line 43: `emergency_backup_` followed
by the timestamp and `.zip`. -/
def backup_filename (ts : Str) : Str :=
  "emergency_backup_".toList ++ ts ++ ".zip".toList

/-- The five entry-writing steps of the `with` block of `create_backup`
(backup.py, lines 48-84), in source order: the database file (when present),
the non-empty CSV exports, `configuration.json`, the uploads tree (when
requested and present), and `metadata.json` last. -/
def backup_entry_steps (fs : FS) (csv_data : List (Str × List Nat))
    (config_bytes metadata_bytes : List Nat) (include_uploads : Bool) :
    List (List (Str × List Nat)) :=
  [ (match fs.db with
     | some content => [("emergency_system.db".toList, content)]
     | none => []),
    (csv_data.filter (fun e => decide (e.2 ≠ []))).map
      (fun e => ("csv_export/".toList ++ e.1 ++ ".csv".toList, e.2)),
    [("configuration.json".toList, config_bytes)],
    (if include_uploads then
       match fs.uploads with
       | some files => files.map (fun e => ("uploads/".toList ++ e.1, e.2))
       | none => []
     else []),
    [("metadata.json".toList, metadata_bytes)] ]

/-- Result of `create_backup`: the success dictionary carrying the archive
file name, or the `{success: False, error: str(e)}` dictionary (the
exception text is external and not modelled). -/
inductive BackupResult : Type
  | ok (backup_file : Str)
  | err
deriving DecidableEq

/-- Model of `BackupManager.create_backup` (backup.py, lines 39-99).  `failAt = some k`
means an exception is raised while performing step `k`, after the steps before
it are complete: `zipfile.ZipFile(path, "w")` has already created the file
under its final name, so the partially-written archive remains on disk and
the caught exception becomes an error result.  `failAt = none` is the normal
run. -/
def create_backup (fs : FS) (csv_data : List (Str × List Nat))
    (config_bytes metadata_bytes : List Nat) (ts : Str) (include_uploads : Bool)
    (failAt : Option (Fin 5)) : FS × BackupResult :=
  let steps := backup_entry_steps fs csv_data config_bytes metadata_bytes include_uploads
  match failAt with
  | none =>
      ({fs with backups := fs.backups ++ [(backup_filename ts, ⟨steps.flatten⟩)]},
       BackupResult.ok (backup_filename ts))
  | some k =>
      ({fs with backups := fs.backups ++ [(backup_filename ts, ⟨(steps.take k.val).flatten⟩)]},
       BackupResult.err)

/-- Result of `restore_backup`: success carries the file name of the safety
backup
(the integrity-check findings are queries against the restored SQLite file,
external to this model); failure carries the error message. -/
inductive RestoreResult : Type
  | ok (safety_backup : Str)
  | err (error : Str)
deriving DecidableEq

/-- The uploads tree extracted by restore step 2 (backup.py, lines 150-162):
entries whose name starts with `uploads/`, the prefix stripped
(`filename[8:]`). -/
def restored_uploads (z : ZipFile) : List (Str × List Nat) :=
  z.entries.filterMap
    (fun e => if e.1.take 8 = "uploads/".toList then some (e.1.drop 8, e.2) else none)

/-- Model of `BackupManager.restore_backup` (backup.py, lines 101-181): check the
archive exists; take the protective safety backup (raising
"No se pudo crear backup de seguridad" if it fails); reject an archive whose
namelist lacks `metadata.json`; copy the current database to the
`.restore_backup` side file and overwrite it with the copy in the archive; if
the archive metadata says uploads were included, wipe and re-extract
`static/uploads`.  `sfail` injects a failure into the safety backup. -/
def restore_backup (fs : FS) (csv_data : List (Str × List Nat))
    (config_bytes metadata_bytes : List Nat) (ts : Str)
    (includesUploads : List Nat → Bool) (backup_file : Str)
    (sfail : Option (Fin 5)) : FS × RestoreResult :=
  match fs.backups.lookup backup_file with
  | none => (fs, RestoreResult.err
      ("Archivo de backup no encontrado: ".toList ++ backup_file))
  | some z =>
    let safety := create_backup fs csv_data config_bytes metadata_bytes ts true sfail
    match safety.2 with
    | BackupResult.err =>
        (safety.1, RestoreResult.err "No se pudo crear backup de seguridad".toList)
    | BackupResult.ok sbname =>
      if "metadata.json".toList ∈ z.namelist then
        let fs2 :=
          match z.readEntry "emergency_system.db".toList with
          | some dbbytes =>
            let fsA :=
              match safety.1.db with
              | some cur => {safety.1 with db_restore_backup := some cur}
              | none => safety.1
            {fsA with db := some dbbytes}
          | none => safety.1
        let includes :=
          match z.readEntry "metadata.json".toList with
          | some m => includesUploads m
          | none => false
        let fs3 := if includes then {fs2 with uploads := some (restored_uploads z)} else fs2
        (fs3, RestoreResult.ok sbname)
      else
        (safety.1, RestoreResult.err
          "Archivo de backup inválido: falta metadata.json".toList)

/-- Every file-system state passed through by `restore_backup`, in execution
order, under any failure injection: `sfail` as in `restore_backup`, `j` a cut
point of the database write (`open(..., "wb")` truncates then writes, so a
mid-write state holds a prefix of the new bytes), `i` a cut point of the
uploads-extraction loop.  Early-error runs stop at a prefix of this list, so
each state reachable during any run (complete or interrupted) is listed.
`create_backup` only ever appends a file inside `backups/`, so its own
intermediate states are the listed ones with a shorter archive. -/
def restore_states (fs : FS) (csv_data : List (Str × List Nat))
    (config_bytes metadata_bytes : List Nat) (ts : Str)
    (includesUploads : List Nat → Bool) (backup_file : Str)
    (sfail : Option (Fin 5)) (j i : Nat) : List FS :=
  match fs.backups.lookup backup_file with
  | none => [fs]
  | some z =>
    let safety := create_backup fs csv_data config_bytes metadata_bytes ts true sfail
    let fs1 := safety.1
    match safety.2 with
    | BackupResult.err => [fs, fs1]
    | BackupResult.ok _ =>
      if "metadata.json".toList ∈ z.namelist then
        let includes :=
          match z.readEntry "metadata.json".toList with
          | some m => includesUploads m
          | none => false
        match z.readEntry "emergency_system.db".toList with
        | some dbbytes =>
          let fsA :=
            match fs1.db with
            | some cur => {fs1 with db_restore_backup := some cur}
            | none => fs1
          let fs2 := {fsA with db := some dbbytes}
          if includes then
            let ups := restored_uploads z
            [fs, fs1, fsA, {fsA with db := some (dbbytes.take j)}, fs2,
             {fs2 with uploads := none}, {fs2 with uploads := some []},
             {fs2 with uploads := some (ups.take i)},
             {fs2 with uploads := some ups}]
          else
            [fs, fs1, fsA, {fsA with db := some (dbbytes.take j)}, fs2]
        | none =>
          if includes then
            let ups := restored_uploads z
            [fs, fs1, {fs1 with uploads := none}, {fs1 with uploads := some []},
             {fs1 with uploads := some (ups.take i)},
             {fs1 with uploads := some ups}]
          else
            [fs, fs1]
      else [fs, fs1]

/-! ## Spec-side definitions (written from the words of spec.md, for refinement
theorems comparing the code behaviour with the specified one) -/

/-- Spec §4.1 step 2, by its words: the single category-specific role for a
record — medical at a residence with priority red/yellow → medical-dispatch
(demva), medical at a residence with priority green → telemedicine, medical
on the public way → community-health-center (cec), fire → fire, security →
security, civil-defense → civil-defense, other → none. -/
def spec_category_recipient (cfg : Configuracion) (l : Llamado) : Option Str :=
  match l.tipo with
  | Tipo.medica =>
      if l.via_publica = "domicilio".toList then
        if l.prioridad = Prioridad.rojo ∨ l.prioridad = Prioridad.amarillo then
          cfg.telefono_demva
        else
          cfg.telefono_telemedicina
      else
        cfg.telefono_cec
  | Tipo.bomberos => cfg.telefono_bomberos
  | Tipo.seguridad => cfg.telefono_seguridad
  | Tipo.defensa => cfg.telefono_defensa
  | Tipo.otros => none

/-- Spec §4.1 steps 1-3, by its words: supervisor first when configured, then
the category-specific role, with unset/empty values dropped. -/
def spec_candidates (cfg : Configuracion) (l : Llamado) : List Str :=
  (([cfg.telefono_supervisor, spec_category_recipient cfg l].filterMap id).filter
    (fun v => decide (v ≠ [])))

/-- Spec §4.1 message rendering, by its words: the abnormal triage flags in
the fixed order not-conscious, not-breathing, severe-bleeding,
known-pathology, disability, each as the line the message shows for it;
absent or normal flags are omitted. -/
def spec_abnormal_flags (t : Triage) : List Str :=
  ([("\n⚠️ NO CONSCIENTE".toList, t.consciente == some false),
    ("\n⚠️ NO RESPIRA".toList, t.respira == some false),
    ("\n🩸 SANGRADO ABUNDANTE".toList, t.sangrado.getD false),
    ("\n⚕️ PATOLOGÍA GRAVE".toList, t.patologia.getD false),
    ("\n♿ DISCAPACIDAD".toList, t.discapacidad.getD false)].filter
      Prod.snd).map Prod.fst

/-! ## Theorems -/

/-- Filtering to digits is stable under a second filter. -/
theorem filter_isDigit_stable (l : List Char) :
    (l.filter Char.isDigit).filter Char.isDigit = l.filter Char.isDigit := by
  simp [List.filter_filter]

/-- C4 (counterexample): normalization is not idempotent on the 10-digit
input "3511234567" — the first pass yields "543511234567", the second
inserts the mobile digit and yields "5493511234567". -/
theorem clean_phone_number_not_idempotent_cex :
    clean_phone_number (clean_phone_number "3511234567".toList) ≠
      clean_phone_number "3511234567".toList := by decide

/-- C4 (amended): phone normalization is idempotent except on inputs whose
digit-only form has exactly 10 digits or is 11 digits starting with '0'
(there the first pass produces a 12-digit "54…" string and the second pass
inserts a '9'); and normalize("3511234567") = normalize("03511234567")
does hold. -/
theorem clean_phone_number_idempotent_amended :
    (∀ phone : Str,
        (phone.filter Char.isDigit).length ≠ 10 →
        ¬((phone.filter Char.isDigit).length = 11 ∧
            (phone.filter Char.isDigit).take 1 = "0".toList) →
        clean_phone_number (clean_phone_number phone) = clean_phone_number phone)
    ∧ clean_phone_number "3511234567".toList =
        clean_phone_number "03511234567".toList := by
  constructor
  · intro phone h10 h11
    by_cases hp : phone = []
    · subst hp; rfl
    have hdd : (phone.filter Char.isDigit).filter Char.isDigit =
        phone.filter Char.isDigit := filter_isDigit_stable phone
    have hdig : ∀ c ∈ phone.filter Char.isDigit, c.isDigit := by
      intro c hc
      exact (List.mem_filter.mp hc).2
    simp only [clean_phone_number, if_neg hp, if_neg h10, if_neg h11]
    by_cases h13 : (phone.filter Char.isDigit).length = 13 ∧
        (phone.filter Char.isDigit).take 3 = "549".toList
    · rw [if_pos h13]
      have hne : phone.filter Char.isDigit ≠ [] := by
        intro h
        rw [h] at h13
        exact absurd h13.1 (by decide)
      simp only [clean_phone_number, if_neg hne, hdd, if_neg h10, if_neg h11,
        if_pos h13]
    · rw [if_neg h13]
      by_cases h12 : (phone.filter Char.isDigit).length = 12 ∧
          (phone.filter Char.isDigit).take 2 = "54".toList
      · rw [if_pos h12]
        set d := phone.filter Char.isDigit with hd
        have he : d.take 2 ++ "9".toList ++ d.drop 2 =
            '5' :: '4' :: '9' :: d.drop 2 := by
          rw [h12.2]; rfl
        rw [he]
        have hne : ('5' : Char) :: '4' :: '9' :: d.drop 2 ≠ [] := by
          intro h; exact List.noConfusion h
        have hfilter : (('5' : Char) :: '4' :: '9' :: d.drop 2).filter Char.isDigit =
            '5' :: '4' :: '9' :: d.drop 2 := by
          apply List.filter_eq_self.mpr
          intro c hc
          simp only [List.mem_cons] at hc
          rcases hc with rfl | rfl | rfl | hc
          · decide
          · decide
          · decide
          · exact hdig c (List.mem_of_mem_drop hc)
        have hlen : (('5' : Char) :: '4' :: '9' :: d.drop 2).length = 13 := by
          simp [List.length_drop, h12.1]
        simp only [clean_phone_number, if_neg hne, hfilter]
        rw [if_neg (by rw [hlen]; decide), if_neg (by rw [hlen]; simp),
          if_pos (by exact ⟨hlen, rfl⟩)]
      · rw [if_neg h12]
        by_cases hdnil : phone.filter Char.isDigit = []
        · rw [hdnil]; rfl
        · simp only [clean_phone_number, if_neg hdnil, hdd, if_neg h10,
            if_neg h11, if_neg h13, if_neg h12]
  · decide

/-- C4 witness: a fully-qualified 13-digit number is a concrete input on
which the amended idempotence applies. -/
theorem clean_phone_number_idempotent_amended_witness :
    clean_phone_number (clean_phone_number "5493511234567".toList) =
      clean_phone_number "5493511234567".toList :=
  clean_phone_number_idempotent_amended.1 _ (by decide) (by decide)

/-- C10: normalization of a falsy (empty) phone returns the empty string, and
an input whose digit-only form matches none of the four branches is returned
digit-only, unchanged, with no country code added. -/
theorem clean_phone_number_fallback :
    clean_phone_number [] = [] ∧
    ∀ phone : Str,
      (phone.filter Char.isDigit).length ≠ 10 →
      ¬((phone.filter Char.isDigit).length = 11 ∧
          (phone.filter Char.isDigit).take 1 = "0".toList) →
      ¬((phone.filter Char.isDigit).length = 13 ∧
          (phone.filter Char.isDigit).take 3 = "549".toList) →
      ¬((phone.filter Char.isDigit).length = 12 ∧
          (phone.filter Char.isDigit).take 2 = "54".toList) →
      clean_phone_number phone = phone.filter Char.isDigit := by
  refine ⟨rfl, ?_⟩
  intro phone h1 h2 h3 h4
  by_cases hp : phone = []
  · subst hp; rfl
  · simp only [clean_phone_number, if_neg hp, if_neg h1, if_neg h2, if_neg h3,
      if_neg h4]

/-- C10 witness: an 8-digit number (with separators) matches no branch and is
returned as its digits, unchanged. -/
theorem clean_phone_number_fallback_witness :
    clean_phone_number "1234-5678".toList = "12345678".toList :=
  clean_phone_number_fallback.2 _ (by decide) (by decide) (by decide) (by decide)

/-- C1: for every configuration and record, the candidate list built by
`obtener_destinatarios` is exactly the §4.1 sequence — supervisor first when
configured, then the single category-specific role (demva for medical at a
residence with red/yellow priority, telemedicina for green, cec on the public
way, bomberos/seguridad/defensa for their categories, nothing for otros) —
with unset/empty values dropped; and the returned list is that sequence after
the first-occurrence duplicate elimination. -/
theorem obtener_destinatarios_spec_order :
    ∀ (cfg : Configuracion) (l : Llamado),
      destinatarios_candidatos cfg l = spec_candidates cfg l ∧
      obtener_destinatarios cfg l = eliminar_duplicados (spec_candidates cfg l) := by
  intro cfg l
  have happ : ∀ o : Option Str,
      ([o].filterMap id).filter (fun v => decide (v ≠ [])) = appendValor o := by
    intro o
    cases o with
    | none => rfl
    | some v =>
      by_cases hv : v = []
      · subst hv; rfl
      · simp [appendValor, hv]
  have hsplit : spec_candidates cfg l =
      appendValor cfg.telefono_supervisor ++
        appendValor (spec_category_recipient cfg l) := by
    have hcons : [cfg.telefono_supervisor, spec_category_recipient cfg l] =
        [cfg.telefono_supervisor] ++ [spec_category_recipient cfg l] := rfl
    rw [spec_candidates, hcons, List.filterMap_append, List.filter_append,
      happ, happ]
  have key : destinatarios_candidatos cfg l = spec_candidates cfg l := by
    rw [hsplit, destinatarios_candidatos]
    congr 1
    cases htipo : l.tipo <;> simp only [spec_category_recipient, htipo] <;>
      first
        | rfl
        | (split_ifs <;> rfl)
  exact ⟨key, by rw [obtener_destinatarios, key]⟩

/-- C2 (counterexample): with credentials configured and no recipient rows
configured, the router resolves an empty recipient list and returns the
`{success: False, error: No hay destinatarios configurados}` failure
dictionary — not a non-error empty outcome list. -/
theorem enviar_empty_recipients_cex :
    enviar_notificacion_llamado (some "tok".toList) (some "uid".toList)
        (fun _ _ => true)
        ⟨none, none, none, none, none, none, none⟩
        ⟨1, "Ana".toList, "Perez".toList, "3511111111".toList,
          "Calle 1 100".toList, "domicilio".toList, none, Tipo.otros,
          Prioridad.verde, none, "01/01/2025 00:00".toList, "Op".toList⟩ =
      (NotifResultado.errorRes false "No hay destinatarios configurados".toList,
       []) := by
  rfl

/-- C2 (amended): for every record and configuration for which the resolved
recipient list is empty, the router performs zero delivery calls but returns
the failure result `No hay destinatarios configurados` with `success =
False` — an error, not a success with an empty outcome list. -/
theorem enviar_empty_recipients_amended :
    ∀ (token uid : Option Str) (gateway : Str → Str → Bool)
      (cfg : Configuracion) (l : Llamado),
      is_configured token uid = true →
      obtener_destinatarios cfg l = [] →
      enviar_notificacion_llamado token uid gateway cfg l =
        (NotifResultado.errorRes false
          "No hay destinatarios configurados".toList, []) := by
  intro token uid gateway cfg l hc hd
  simp only [enviar_notificacion_llamado, hc, hd]
  rfl

/-- C2 witness: the amended statement applied to a concrete configured
manager with every recipient row absent. -/
theorem enviar_empty_recipients_amended_witness :
    enviar_notificacion_llamado (some "t".toList) (some "u".toList)
        (fun _ _ => false) ⟨none, none, none, none, none, none, none⟩
        ⟨2, "Eva".toList, "Gomez".toList, "3512222222".toList,
          "Calle 2 200".toList, "via_publica".toList, none, Tipo.otros,
          Prioridad.rojo, none, "02/01/2025 10:00".toList, "Op2".toList⟩ =
      (NotifResultado.errorRes false
        "No hay destinatarios configurados".toList, []) :=
  enviar_empty_recipients_amended _ _ _ _ _ (by decide) (by decide)

/-- C9: if the messaging credentials are not configured,
`enviar_notificacion_llamado` returns `{success: False, error: WhatsApp
no configurado}` with an empty delivery-call log; the result is the same for
every configuration, record and gateway, so no recipient resolution, message
rendering or delivery enters into it — a failure distinct from the
empty-recipients result. -/
theorem enviar_not_configured :
    ∀ (token uid : Option Str) (gateway : Str → Str → Bool)
      (cfg : Configuracion) (l : Llamado),
      is_configured token uid = false →
      enviar_notificacion_llamado token uid gateway cfg l =
        (NotifResultado.errorRes false "WhatsApp no configurado".toList, []) := by
  intro token uid gateway cfg l h
  simp only [enviar_notificacion_llamado, h]
  rfl

/-- C9 witness: a manager with no token (and a token with empty uid is just
as unconfigured) returns the not-configured failure on a concrete record. -/
theorem enviar_not_configured_witness :
    enviar_notificacion_llamado none (some "u".toList) (fun _ _ => true)
        ⟨some "3511111111".toList, none, none, none, none, none, none⟩
        ⟨3, "Luz".toList, "Diaz".toList, "3513333333".toList,
          "Calle 3 300".toList, "domicilio".toList, none, Tipo.medica,
          Prioridad.rojo, none, "03/01/2025 11:00".toList, "Op3".toList⟩ =
      (NotifResultado.errorRes false "WhatsApp no configurado".toList, []) :=
  enviar_not_configured _ _ _ _ _ (by decide)

/-- C6 (counterexample): the triage section is gated on `any(triage.values())`
rather than on some flag being abnormal.  With triage `{consciente: true}`
there are zero abnormal flags yet the rendered message still appends the bare
`🩺 TRIAGE:` header; with `{consciente: false}` the not-conscious flag is
abnormal yet the section is omitted entirely. -/
theorem triage_section_cex :
    (spec_abnormal_flags ⟨some true, none, none, none, none⟩ = [] ∧
      triage_suffix Tipo.medica (some ⟨some true, none, none, none, none⟩) =
        "\n\n🩺 TRIAGE:".toList) ∧
    (spec_abnormal_flags ⟨some false, none, none, none, none⟩ =
        ["\n⚠️ NO CONSCIENTE".toList] ∧
      triage_suffix Tipo.medica (some ⟨some false, none, none, none, none⟩) =
        []) := by
  exact ⟨⟨rfl, rfl⟩, ⟨rfl, rfl⟩⟩

/-- C6 (amended): the rendered message is the base message plus the triage
suffix, and for a medical record with triage data present the suffix is
appended iff some present triage value is truthy (`any(triage.values())`);
when appended it is the header followed by exactly the abnormal flags in the
fixed order not-conscious, not-breathing, severe-bleeding, known-pathology,
disability.  (Hence a record whose only abnormal flags are
`consciente/respira = false` gets no section, and a record with a truthy but
normal value gets the header with zero flag lines.) -/
theorem crear_mensaje_triage_amended :
    (∀ l : Llamado, crear_mensaje_llamado l =
        base_mensaje l ++ triage_suffix l.tipo l.triage_data) ∧
    (∀ t : Triage, triage_suffix Tipo.medica (some t) =
        if t.anyValues then
          "\n\n🩺 TRIAGE:".toList ++ (spec_abnormal_flags t).flatten
        else []) := by
  constructor
  · intro l; rfl
  · intro t
    by_cases h0 : t.anyValues = true <;>
    by_cases h1 : t.consciente = some false <;>
    by_cases h2 : t.respira = some false <;>
    by_cases h3 : t.sangrado.getD false = true <;>
    by_cases h4 : t.patologia.getD false = true <;>
    by_cases h5 : t.discapacidad.getD false = true <;>
    simp [triage_suffix, spec_abnormal_flags, h0, h1, h2, h3, h4, h5]

/-- The duplicate-elimination fold keeps the accumulator duplicate-free. -/
theorem eliminar_duplicados_fold_nodup :
    ∀ (l acc : List Str), acc.Nodup →
      (l.foldl (fun acc dest => if dest ∈ acc then acc else acc ++ [dest])
        acc).Nodup := by
  intro l
  induction l with
  | nil => intro acc h; exact h
  | cons a l ih =>
    intro acc h
    simp only [List.foldl_cons]
    by_cases ha : a ∈ acc
    · rw [if_pos ha]; exact ih acc h
    · rw [if_neg ha]
      apply ih
      simp [List.nodup_append, h, ha]

/-- The duplicate-elimination fold appends to the accumulator a sublist of the
input that, together with the accumulator, covers every input element. -/
theorem eliminar_duplicados_fold_append :
    ∀ (l acc : List Str), ∃ t : List Str,
      l.foldl (fun acc dest => if dest ∈ acc then acc else acc ++ [dest]) acc =
          acc ++ t ∧
        List.Sublist t l ∧ ∀ x ∈ l, x ∈ acc ++ t := by
  intro l
  induction l with
  | nil =>
    intro acc
    exact ⟨[], by simp, List.nil_sublist _, by simp⟩
  | cons a l ih =>
    intro acc
    simp only [List.foldl_cons]
    by_cases ha : a ∈ acc
    · rw [if_pos ha]
      obtain ⟨t, h1, h2, h3⟩ := ih acc
      refine ⟨t, h1, h2.cons _, ?_⟩
      intro x hx
      rcases List.mem_cons.mp hx with rfl | hx
      · exact List.mem_append.mpr (Or.inl ha)
      · exact h3 x hx
    · rw [if_neg ha]
      obtain ⟨t, h1, h2, h3⟩ := ih (acc ++ [a])
      refine ⟨a :: t, ?_, h2.cons₂ _, ?_⟩
      · rw [h1]; simp
      · intro x hx
        rcases List.mem_cons.mp hx with rfl | hx
        · simp
        · have := h3 x hx
          simp only [List.append_assoc] at this
          simpa using this

/-- C5 (counterexample): with supervisor `"3511234567"` and medical dispatch
`"03511234567"`, a red medical call at a residence resolves to both entries
— two recipients that normalize to the same phone number, because the
deduplication compares the raw configured strings, before normalization. -/
theorem obtener_destinatarios_dedup_cex :
    obtener_destinatarios
        ⟨some "3511234567".toList, some "03511234567".toList, none, none,
          none, none, none⟩
        ⟨4, "Ana".toList, "Perez".toList, "3514444444".toList,
          "Calle 4 400".toList, "domicilio".toList, none, Tipo.medica,
          Prioridad.rojo, none, "04/01/2025 09:00".toList, "Op4".toList⟩ =
      ["3511234567".toList, "03511234567".toList] ∧
    clean_phone_number "3511234567".toList =
      clean_phone_number "03511234567".toList := by
  exact ⟨by decide, by decide⟩

/-- C5 (amended): the router deduplicates by exact string equality on the raw
configured values, before any phone normalization (normalization happens
later, inside `send_message`): the returned list has no duplicate raw
entries, is a sublist of the candidate sequence (so first-seen order is
preserved), and contains exactly the candidate values.  Two configured values
that differ as strings but normalize to the same number both survive. -/
theorem obtener_destinatarios_dedup_amended :
    ∀ (cfg : Configuracion) (l : Llamado),
      (obtener_destinatarios cfg l).Nodup ∧
      List.Sublist (obtener_destinatarios cfg l) (destinatarios_candidatos cfg l) ∧
      ∀ x, x ∈ obtener_destinatarios cfg l ↔ x ∈ destinatarios_candidatos cfg l := by
  intro cfg l
  obtain ⟨t, h1, h2, h3⟩ :=
    eliminar_duplicados_fold_append (destinatarios_candidatos cfg l) []
  have he : obtener_destinatarios cfg l = t := by
    rw [obtener_destinatarios, eliminar_duplicados, h1]; simp
  refine ⟨?_, ?_, ?_⟩
  · exact eliminar_duplicados_fold_nodup _ [] List.nodup_nil
  · rw [he]; exact h2
  · intro x
    constructor
    · intro hx; rw [he] at hx; exact h2.subset hx
    · intro hx
      have := h3 x hx
      rw [he]; simpa using this

/-- A string starting with a character other than 'm' is not
`"metadata.json"`. -/
theorem cons_ne_metadata {c : Char} (t : Str) (hc : c ≠ 'm') :
    c :: t ≠ "metadata.json".toList := by
  intro h
  have hm : ("metadata.json".toList : List Char) =
      'm' :: "etadata.json".toList := rfl
  rw [hm] at h
  injection h with h1 _
  exact hc h1

/-- No entry written by the first four steps of `create_backup` is named
`metadata.json`: the metadata entry is written only by the fifth, final
step. -/
theorem metadata_not_in_early_steps :
    ∀ (fs : FS) (csv : List (Str × List Nat)) (cfgb mdb : List Nat)
      (inc : Bool),
      ∀ s ∈ (backup_entry_steps fs csv cfgb mdb inc).take 4, ∀ e ∈ s,
        e.1 ≠ "metadata.json".toList := by
  intro fs csv cfgb mdb inc s hs e he
  simp only [backup_entry_steps, List.take_succ_cons, List.take_zero,
    List.mem_cons, List.not_mem_nil, or_false] at hs
  rcases hs with rfl | rfl | rfl | rfl
  · rcases hdb : fs.db with _ | content <;> rw [hdb] at he
    · simp at he
    · simp only [List.mem_singleton] at he
      rw [he]
      have hne : ("emergency_system.db".toList : Str) ≠
          "metadata.json".toList := by decide
      exact hne
  · obtain ⟨a, _, rfl⟩ := List.mem_map.mp he
    have hshape : "csv_export/".toList ++ a.1 ++ ".csv".toList =
        'c' :: ("sv_export/".toList ++ a.1 ++ ".csv".toList) := rfl
    rw [hshape]
    exact cons_ne_metadata _ (by decide)
  · simp only [List.mem_singleton] at he
    rw [he]
    have hne : ("configuration.json".toList : Str) ≠
        "metadata.json".toList := by decide
    exact hne
  · by_cases hinc : inc = true
    · rw [hinc] at he
      rcases hu : fs.uploads with _ | files <;> rw [hu] at he
      · simp at he
      · simp only [if_true] at he
        obtain ⟨a, _, rfl⟩ := List.mem_map.mp he
        have hshape : "uploads/".toList ++ a.1 =
            'u' :: ("ploads/".toList ++ a.1) := rfl
        rw [hshape]
        exact cons_ne_metadata _ (by decide)
    · rw [if_neg hinc] at he
      simp at he

/-- C7 (counterexample): a `create_backup` run that fails during step 2
(after the database and CSV entries are written) returns a failure result but
leaves the partially-written archive visible under the final
`emergency_backup_<timestamp>.zip` name — it exists yet is not complete. -/
theorem create_backup_partial_cex :
    (create_backup ⟨some [1, 2], [], none, none⟩ [("usuarios".toList, [7])]
        [8] [9] "20250101_000000".toList true (some 2)).2 = BackupResult.err ∧
    (create_backup ⟨some [1, 2], [], none, none⟩ [("usuarios".toList, [7])]
        [8] [9] "20250101_000000".toList true (some 2)).1.backups =
      [(backup_filename "20250101_000000".toList,
        ⟨[("emergency_system.db".toList, [1, 2]),
          ("csv_export/usuarios.csv".toList, [7])]⟩)] ∧
    "metadata.json".toList ∉
      (ZipFile.mk [("emergency_system.db".toList, [1, 2]),
        ("csv_export/usuarios.csv".toList, [7])]).namelist := by
  exact ⟨rfl, by decide, by decide⟩

/-- C7 (amended): an execution of `create_backup` that fails partway does
return a failure result, but a partially-written archive does remain visible
under its final deterministic name; what holds instead of all-or-nothing is
that such a partial archive never contains the `metadata.json` marker (it is
written last), so it is never a valid archive — `restore_backup` rejects
it. -/
theorem create_backup_failure_no_valid_archive :
    ∀ (fs : FS) (csv : List (Str × List Nat)) (cfgb mdb : List Nat) (ts : Str)
      (inc : Bool) (k : Fin 5),
      (create_backup fs csv cfgb mdb ts inc (some k)).2 = BackupResult.err ∧
      ∃ z : ZipFile,
        (backup_filename ts, z) ∈
          (create_backup fs csv cfgb mdb ts inc (some k)).1.backups ∧
        "metadata.json".toList ∉ z.namelist := by
  intro fs csv cfgb mdb ts inc k
  refine ⟨rfl,
    ⟨((backup_entry_steps fs csv cfgb mdb inc).take k.val).flatten⟩, ?_, ?_⟩
  · simp [create_backup]
  · intro hmem
    rw [ZipFile.namelist] at hmem
    obtain ⟨e, he, heq⟩ := List.mem_map.mp hmem
    obtain ⟨s, hsmem, hes⟩ := List.mem_flatten.mp he
    have hs4 : s ∈ (backup_entry_steps fs csv cfgb mdb inc).take 4 := by
      have hk : k.val ≤ 4 := Nat.lt_succ_iff.mp k.isLt
      have hcut : (backup_entry_steps fs csv cfgb mdb inc).take k.val =
          ((backup_entry_steps fs csv cfgb mdb inc).take 4).take k.val := by
        rw [List.take_take, Nat.min_eq_left hk]
      rw [hcut] at hsmem
      exact List.take_subset _ _ hsmem
    exact metadata_not_in_early_steps fs csv cfgb mdb inc s hs4 e hes heq

/-- C3 (counterexample): restoring the archive `bad.zip`, which has no
`metadata.json` entry, fails with the invalid-archive error and leaves the
primary data store byte-identical — but the protective safety backup has
already been taken when the archive is rejected: the backup directory has
grown from one file to two. -/
theorem restore_invalid_archive_cex :
    (restore_backup
        ⟨some [1, 2, 3], [("bad.zip".toList, ⟨[("x".toList, [0])]⟩)], none,
          none⟩
        [] [5] [6] "20250102_000000".toList (fun _ => false)
        "bad.zip".toList none).2 =
      RestoreResult.err
        "Archivo de backup inválido: falta metadata.json".toList ∧
    (restore_backup
        ⟨some [1, 2, 3], [("bad.zip".toList, ⟨[("x".toList, [0])]⟩)], none,
          none⟩
        [] [5] [6] "20250102_000000".toList (fun _ => false)
        "bad.zip".toList none).1.db = some [1, 2, 3] ∧
    (restore_backup
        ⟨some [1, 2, 3], [("bad.zip".toList, ⟨[("x".toList, [0])]⟩)], none,
          none⟩
        [] [5] [6] "20250102_000000".toList (fun _ => false)
        "bad.zip".toList none).1.backups.map Prod.fst =
      ["bad.zip".toList, backup_filename "20250102_000000".toList] := by
  exact ⟨by decide, by decide, by decide⟩

/-- C3 (amended): restoring an archive whose zip lacks a `metadata.json`
entry fails with the invalid-archive error and leaves the primary data store
(and the uploads tree and side file) byte-identical to before the call — but
the rejection happens after the protective safety backup of the actual step 1
is taken, not before it: the final state is the initial one with exactly the
safety-backup archive appended to the backup directory. -/
theorem restore_invalid_archive_after_safety :
    ∀ (fs : FS) (csv : List (Str × List Nat)) (cfgb mdb : List Nat) (ts : Str)
      (piu : List Nat → Bool) (bf : Str) (z : ZipFile),
      fs.backups.lookup bf = some z →
      "metadata.json".toList ∉ z.namelist →
      restore_backup fs csv cfgb mdb ts piu bf none =
        ({fs with backups := fs.backups ++
            [(backup_filename ts,
              ⟨(backup_entry_steps fs csv cfgb mdb true).flatten⟩)]},
         RestoreResult.err
           "Archivo de backup inválido: falta metadata.json".toList) := by
  intro fs csv cfgb mdb ts piu bf z hlk hmeta
  simp only [restore_backup, hlk, create_backup, if_neg hmeta]

/-- C3 witness: the amended statement applied to a concrete store and a
concrete foreign archive. -/
theorem restore_invalid_archive_after_safety_witness :
    restore_backup ⟨some [9], [("foreign.zip".toList, ⟨[]⟩)], none, none⟩ []
        [5] [6] "20250103_000000".toList (fun _ => true) "foreign.zip".toList
        none =
      ({ db := some [9],
         backups := [("foreign.zip".toList, ⟨[]⟩)] ++
           [(backup_filename "20250103_000000".toList,
             ⟨(backup_entry_steps ⟨some [9], [("foreign.zip".toList, ⟨[]⟩)],
                 none, none⟩ [] [5] [6] true).flatten⟩)],
         db_restore_backup := none, uploads := none },
       RestoreResult.err
         "Archivo de backup inválido: falta metadata.json".toList) :=
  restore_invalid_archive_after_safety
    ⟨some [9], [("foreign.zip".toList, ⟨[]⟩)], none, none⟩ [] [5] [6]
    "20250103_000000".toList (fun _ => true) "foreign.zip".toList ⟨[]⟩
    (by decide) (by decide)

/-- C8: restore never leaves the primary data store missing.  Part 1: in
every state passed through by `restore_backup` — under any safety-backup
failure injection, any database-write cut point `j` and any uploads-loop cut
point `i` — the primary data-store file still exists whenever it existed
before the call (the write truncates and rewrites it in place; it is never
deleted).  Part 2: on the path that replaces the data store, the pre-restore
content is preserved under the `.restore_backup` side filename rather than
deleted, and the store holds the copy from the archive afterwards.  Part 3
ties the
trace to the function: the state `restore_backup` finishes in is always one
of the traced states. -/
theorem restore_db_never_missing :
    ∀ (fs : FS) (csv : List (Str × List Nat)) (cfgb mdb : List Nat) (ts : Str)
      (piu : List Nat → Bool) (bf : Str) (sfail : Option (Fin 5)) (j i : Nat),
      (∀ s ∈ restore_states fs csv cfgb mdb ts piu bf sfail j i,
          fs.db.isSome = true → s.db.isSome = true) ∧
      ((restore_backup fs csv cfgb mdb ts piu bf sfail).1 ∈
          restore_states fs csv cfgb mdb ts piu bf sfail j i) ∧
      (∀ (z : ZipFile) (dbbytes cur : List Nat),
          fs.backups.lookup bf = some z →
          "metadata.json".toList ∈ z.namelist →
          z.readEntry "emergency_system.db".toList = some dbbytes →
          fs.db = some cur →
          (restore_backup fs csv cfgb mdb ts piu bf none).1.db_restore_backup =
              some cur ∧
            (restore_backup fs csv cfgb mdb ts piu bf none).1.db =
              some dbbytes) := by
  intro fs csv cfgb mdb ts piu bf sfail j i
  constructor
  · intro s hs hdb
    rcases hlk : fs.backups.lookup bf with _ | z
    · simp only [restore_states, hlk, List.mem_singleton] at hs
      rw [hs]; exact hdb
    · rcases sfail with _ | k
      · simp only [restore_states, hlk, create_backup] at hs
        by_cases hmeta : "metadata.json".toList ∈ z.namelist
        · rw [if_pos hmeta] at hs
          rcases hre : z.readEntry "emergency_system.db".toList with _ | dbbytes <;>
            simp only [hre] at hs
          · rcases hrm : z.readEntry "metadata.json".toList with _ | m <;>
              simp only [hrm] at hs
            · rw [if_neg (by decide : ¬(false = true))] at hs
              simp only [List.mem_cons, List.not_mem_nil, or_false] at hs
              rcases hs with rfl | rfl <;> exact hdb
            · by_cases hb : piu m = true
              · rw [if_pos hb] at hs
                simp only [List.mem_cons, List.not_mem_nil, or_false] at hs
                rcases hs with rfl | rfl | rfl | rfl | rfl | rfl <;> exact hdb
              · rw [if_neg hb] at hs
                simp only [List.mem_cons, List.not_mem_nil, or_false] at hs
                rcases hs with rfl | rfl <;> exact hdb
          · rcases hfdb : fs.db with _ | cur
            · rw [hfdb] at hdb; simp at hdb
            · simp only [hfdb] at hs
              rcases hrm : z.readEntry "metadata.json".toList with _ | m <;>
                simp only [hrm] at hs
              · rw [if_neg (by decide : ¬(false = true))] at hs
                simp only [List.mem_cons, List.not_mem_nil, or_false] at hs
                rcases hs with rfl | rfl | rfl | rfl | rfl <;>
                  first | exact hdb | simp
              · by_cases hb : piu m = true
                · rw [if_pos hb] at hs
                  simp only [List.mem_cons, List.not_mem_nil, or_false] at hs
                  rcases hs with rfl | rfl | rfl | rfl | rfl | rfl | rfl | rfl | rfl <;>
                    first | exact hdb | simp
                · rw [if_neg hb] at hs
                  simp only [List.mem_cons, List.not_mem_nil, or_false] at hs
                  rcases hs with rfl | rfl | rfl | rfl | rfl <;>
                    first | exact hdb | simp
        · rw [if_neg hmeta] at hs
          simp only [List.mem_cons, List.not_mem_nil, or_false] at hs
          rcases hs with rfl | rfl <;> exact hdb
      · simp only [restore_states, hlk, create_backup, List.mem_cons,
          List.not_mem_nil, or_false] at hs
        rcases hs with rfl | rfl <;> exact hdb
  constructor
  · rcases hlk : fs.backups.lookup bf with _ | z
    · simp [restore_backup, restore_states, hlk]
    · rcases sfail with _ | k
      · by_cases hmeta : "metadata.json".toList ∈ z.namelist
        · rcases hre : z.readEntry "emergency_system.db".toList with _ | dbbytes
          · rcases hrm : z.readEntry "metadata.json".toList with _ | m
            · simp only [restore_backup, restore_states, hlk, create_backup,
                hre, hrm, if_pos hmeta]
              simp
            · simp only [restore_backup, restore_states, hlk, create_backup,
                hre, hrm, if_pos hmeta]
              by_cases hb : piu m = true <;> simp [hb]
          · rcases hrm : z.readEntry "metadata.json".toList with _ | m
            · simp only [restore_backup, restore_states, hlk, create_backup,
                hre, hrm, if_pos hmeta]
              simp
            · simp only [restore_backup, restore_states, hlk, create_backup,
                hre, hrm, if_pos hmeta]
              by_cases hb : piu m = true <;> simp [hb]
        · simp only [restore_backup, restore_states, hlk, create_backup,
            if_neg hmeta]
          simp
      · simp [restore_backup, restore_states, hlk, create_backup]
  · intro z dbbytes cur hlk hmeta hre hfdb
    simp only [restore_backup, hlk, create_backup, if_pos hmeta, hre, hfdb]
    refine ⟨?_, ?_⟩ <;> split <;> rfl

/-- C8 witness: a concrete restore of a valid archive over an existing store
— the state `fs` itself is in the trace with its store present, and the final
state keeps the old bytes `[9]` in the side file and holds the archived
bytes `[1]` as the store. -/
theorem restore_db_never_missing_witness :
    (({ db := some [9],
        backups := [("good.zip".toList,
          ⟨[("metadata.json".toList, [2]),
            ("emergency_system.db".toList, [1])]⟩)],
        db_restore_backup := none, uploads := none } : FS).db.isSome = true) ∧
    (restore_backup
        ⟨some [9],
          [("good.zip".toList,
            ⟨[("metadata.json".toList, [2]),
              ("emergency_system.db".toList, [1])]⟩)], none, none⟩
        [] [5] [6] "20250104_000000".toList (fun _ => false)
        "good.zip".toList none).1.db_restore_backup = some [9] := by
  constructor
  · exact ((restore_db_never_missing
      ⟨some [9],
        [("good.zip".toList,
          ⟨[("metadata.json".toList, [2]),
            ("emergency_system.db".toList, [1])]⟩)], none, none⟩
      [] [5] [6] "20250104_000000".toList (fun _ => false) "good.zip".toList
      none 0 0).1 _ (by decide) (by decide))
  · exact ((restore_db_never_missing
      ⟨some [9],
        [("good.zip".toList,
          ⟨[("metadata.json".toList, [2]),
            ("emergency_system.db".toList, [1])]⟩)], none, none⟩
      [] [5] [6] "20250104_000000".toList (fun _ => false) "good.zip".toList
      none 0 0).2.2 ⟨[("metadata.json".toList, [2]),
        ("emergency_system.db".toList, [1])]⟩ [1] [9] (by decide) (by decide)
      (by decide) (by decide)).1

end Emergencias
